import Mathlib

/-!
Shallow embedding of the authentication and authorization core of the
zione backend (Go): the JWT token codec (golang-jwt/jwt v5 semantics with
HMAC-HS256), the auth service (Login, Register, RefreshToken,
ValidateToken from internal/services/auth.go), the gin middleware
(Auth, RequireRole from internal/middleware), the user model password
hooks (internal/models/user.go), and the HTTP response helpers.

Modelling conventions:
  - time is Unix seconds as an Int (jwt NumericDate);
  - a signed token is a structured value carrying its payload and the
    secret it was signed with; HMAC verification succeeds exactly when
    the verification secret equals the signing secret (standard MAC
    abstraction);
  - bcrypt hashing and verification are abstracted as function
    parameters (the service only calls them);
  - the gorm store is a list of users plus a list of roles; point reads
    are modelled with List.find?.
-/

deriving instance DecidableEq for Except

namespace Zione

/-! ### Data model (internal/models) -/

/-- Role row: internal/models/role.go. -/
structure Role where
  id : Nat
  name : String
deriving Repr, DecidableEq

/-- Predefined role constant from role.go: RoleAdmin = 1. -/
def RoleAdmin : Nat := 1

/-- Predefined role constant from role.go: RoleEditor = 2. -/
def RoleEditor : Nat := 2

/-- Predefined role constant from role.go: RoleUser = 3. -/
def RoleUser : Nat := 3

/-- User row: internal/models/user.go. password holds whatever the
hooks stored (a bcrypt digest or, when the hooks skip hashing, the
plaintext). -/
structure User where
  id : Nat
  name : String
  email : String
  phone : String
  password : String
  roleID : Nat
deriving Repr, DecidableEq

/-- The relational store visible to the auth core: users plus roles. -/
structure DB where
  users : List User
  roles : List Role
deriving Repr, DecidableEq

/-- gorm point read Where("phone = ?").First: first user with the phone,
or record-not-found. -/
def findUserByPhone (db : DB) (phone : String) : Option User :=
  db.users.find? (fun u => u.phone == phone)

/-- gorm point read First(and user, id): first user with the id. -/
def findUserByID (db : DB) (id : Nat) : Option User :=
  db.users.find? (fun u => u.id == id)

/-- Preload("Role"): the role name joined for u.roleID; a dangling
reference loads the zero value Role with empty name. -/
def loadRoleName (db : DB) (u : User) : String :=
  ((db.roles.find? (fun r => r.id == u.roleID)).map Role.name).getD ""

/-! ### Password hooks (internal/models/user.go)

Go len() is byte length, hence String.utf8ByteSize. bcrypt
GenerateFromPassword is the abstract parameter bhash. -/

/-- User.BeforeCreate: hash the password only when it is non-empty and
shorter than 60 bytes (a bcrypt digest is 60 bytes, so digests are left
alone). -/
def beforeCreatePassword (bhash : String → String) (p : String) : String :=
  if 0 < p.utf8ByteSize && p.utf8ByteSize < 60 then bhash p else p

/-- User.BeforeUpdate: same guard as BeforeCreate plus the
Statement.Changed("Password") check. -/
def beforeUpdatePassword (bhash : String → String) (passwordChanged : Bool)
    (p : String) : String :=
  if passwordChanged && (0 < p.utf8ByteSize && p.utf8ByteSize < 60) then bhash p else p

/-! ### JWT codec (golang-jwt/jwt v5, HMAC-HS256) -/

/-- JWT configuration: configs/config.go JWTConfig, expiries in seconds. -/
structure JWTConfig where
  secret : String
  accessTokenExpiry : Int
  refreshTokenExpiry : Int
deriving Repr, DecidableEq

/-- The defaults from configs/config.go LoadConfig: 15 minutes access,
7 days refresh. -/
def defaultJWTConfig : JWTConfig :=
  { secret := "default-jwt-secret-change-in-production"
    accessTokenExpiry := 15 * 60
    refreshTokenExpiry := 7 * 24 * 60 * 60 }

/-- Access token claims: services.Claims (user id, role, and the
registered claims exp, iat, sub actually set by the service). -/
structure Claims where
  userID : Nat
  role : String
  expiresAt : Int
  issuedAt : Int
  subject : String
deriving Repr, DecidableEq

/-- Refresh token claims: services.RefreshTokenClaims. -/
structure RefreshTokenClaims where
  userID : Nat
  expiresAt : Int
  issuedAt : Int
  subject : String
deriving Repr, DecidableEq

/-- A compact signed token: payload plus the secret that signed it.
HMAC verification against a candidate secret succeeds iff the secrets
coincide. -/
structure SignedToken (α : Type) where
  payload : α
  signingSecret : String
deriving Repr, DecidableEq

/-- jwt v5 parse errors reachable for structured tokens:
ErrTokenSignatureInvalid and ErrTokenExpired (wrapped in
ErrTokenInvalidClaims). -/
inductive JwtError where
  | signatureInvalid
  | tokenExpired
deriving Repr, DecidableEq

/-- jwt.ParseWithClaims with the service keyfunc: verify the HMAC
signature first (v5 order), then validate claims with zero leeway —
the token is valid only while now is strictly before exp. -/
def parseWithClaims {α : Type} (getExp : α → Int) (tok : SignedToken α)
    (secret : String) (now : Int) : Except JwtError α :=
  if tok.signingSecret ≠ secret then .error .signatureInvalid
  else if getExp tok.payload ≤ now then .error .tokenExpired
  else .ok tok.payload

/-- jwt.NewWithClaims(HS256, claims).SignedString(secret). -/
def signClaims (c : Claims) (secret : String) : SignedToken Claims :=
  { payload := c, signingSecret := secret }

/-! ### Auth service (internal/services/auth.go) -/

/-- services.UserResponse. -/
structure UserResponse where
  id : Nat
  name : String
  email : String
  phone : String
  role : String
deriving Repr, DecidableEq

/-- services.TokenResponse. -/
structure TokenResponse where
  accessToken : SignedToken Claims
  refreshToken : SignedToken RefreshTokenClaims
  expiresAt : Int
  user : UserResponse
deriving Repr, DecidableEq

/-- generateAccessToken: claims bound to the user id and role name,
expiry now + AccessTokenExpiry, issued-at now, subject the decimal
user id; signed with the configured secret. Returns (token, expiresAt). -/
def generateAccessToken (cfg : JWTConfig) (u : User) (roleName : String)
    (now : Int) : SignedToken Claims × Int :=
  let expiresAt := now + cfg.accessTokenExpiry
  ({ payload :=
      { userID := u.id, role := roleName, expiresAt := expiresAt
        issuedAt := now, subject := toString u.id }
     signingSecret := cfg.secret }, expiresAt)

/-- generateRefreshToken: claims carry only the user id and the
registered fields, expiry now + RefreshTokenExpiry. -/
def generateRefreshToken (cfg : JWTConfig) (u : User) (now : Int) :
    SignedToken RefreshTokenClaims :=
  { payload :=
      { userID := u.id, expiresAt := now + cfg.refreshTokenExpiry
        issuedAt := now, subject := toString u.id }
    signingSecret := cfg.secret }

/-- AuthService.ValidateToken: parse with the configured secret; a parse
error is returned as-is, otherwise the claims are returned. -/
def ValidateToken (secret : String) (tok : SignedToken Claims) (now : Int) :
    Except JwtError Claims :=
  match parseWithClaims (fun c => c.expiresAt) tok secret now with
  | .error e => .error e
  | .ok claims => .ok claims

/-- Builds the TokenResponse shared by Login, Register and RefreshToken. -/
def mintTokenResponse (cfg : JWTConfig) (db : DB) (u : User) (now : Int) :
    TokenResponse :=
  let roleName := loadRoleName db u
  let access := generateAccessToken cfg u roleName now
  { accessToken := access.1
    refreshToken := generateRefreshToken cfg u now
    expiresAt := access.2
    user := { id := u.id, name := u.name, email := u.email
              phone := u.phone, role := roleName } }

/-- AuthService.Login: look up by phone (record-not-found yields the
generic error), check the password with bcrypt (failure yields the very
same generic error string), then mint the token pair. The errors of the
two failure branches are the identical value errors.New builds from the
message "invalid phone or password". -/
def Login (cfg : JWTConfig) (db : DB) (bverify : String → String → Bool)
    (phone pw : String) (now : Int) : Except String TokenResponse :=
  match findUserByPhone db phone with
  | none => .error "invalid phone or password"
  | some user =>
    if !bverify user.password pw then .error "invalid phone or password"
    else .ok (mintTokenResponse cfg db user now)

/-- services.RegisterRequest. -/
structure RegisterRequest where
  name : String
  email : String
  phone : String
  password : String
deriving Repr, DecidableEq

/-- gorm auto-increment primary key for the users table. -/
def nextUserID (db : DB) : Nat :=
  (db.users.map User.id).foldr max 0 + 1

/-- The user row Register persists: the request fields, the password as
stored by the BeforeCreate hook, the default RoleID = RoleUser, and the
auto-increment id. -/
def newUserOf (db : DB) (bhash : String → String) (req : RegisterRequest) : User :=
  { id := nextUserID db, name := req.name, email := req.email
    phone := req.phone
    password := beforeCreatePassword bhash req.password
    roleID := RoleUser }

/-- AuthService.Register: one count query on email = ? OR phone = ?; a
positive count rejects as duplicate; otherwise the user is created with
RoleID = RoleUser (BeforeCreate hashing the password), the role is
preloaded, and the token pair is minted exactly as in Login. Returns the
updated store alongside the response. -/
def Register (cfg : JWTConfig) (db : DB) (bhash : String → String)
    (req : RegisterRequest) (now : Int) : Except String (DB × TokenResponse) :=
  let dupCount :=
    (db.users.filter (fun u => u.email == req.email || u.phone == req.phone)).length
  if dupCount > 0 then .error "user with this email or phone already exists"
  else
    let user := newUserOf db bhash req
    let db2 : DB := { users := db.users ++ [user], roles := db.roles }
    .ok (db2, mintTokenResponse cfg db2 user now)

/-- Errors of AuthService.RefreshToken, kept distinct exactly as the Go
code keeps them distinct: the jwt parse error returned as-is, the
errors.New("invalid refresh token") of the dead validity branch, and
gorm.ErrRecordNotFound returned as-is from the user lookup. -/
inductive RefreshError where
  | jwtError (e : JwtError)
  | invalidRefreshToken
  | recordNotFound
deriving Repr, DecidableEq

/-- AuthService.RefreshToken: parse the refresh token (parse errors
returned directly), look the user up by the embedded id
(gorm.ErrRecordNotFound returned directly when gone), then mint a brand
new access and refresh pair. -/
def RefreshToken (cfg : JWTConfig) (db : DB)
    (tok : SignedToken RefreshTokenClaims) (now : Int) :
    Except RefreshError TokenResponse :=
  match parseWithClaims (fun c => c.expiresAt) tok cfg.secret now with
  | .error e => .error (.jwtError e)
  | .ok claims =>
    match findUserByID db claims.userID with
    | none => .error .recordNotFound
    | some user => .ok (mintTokenResponse cfg db user now)

/-! ### HTTP layer (internal/utils/response.go, controllers, middleware) -/

/-- The observable part of a utils.Response as written by the helpers:
HTTP status, success flag and message. -/
structure HttpResponse where
  status : Nat
  success : Bool
  message : String
deriving Repr, DecidableEq

/-- err.Error() of each RefreshToken failure, as the Go error values
render themselves (jwt v5 wraps the expiry failure in
ErrTokenInvalidClaims; gorm renders record-not-found). -/
def refreshErrorMessage : RefreshError → String
  | .jwtError .signatureInvalid => "token signature is invalid"
  | .jwtError .tokenExpired => "token has invalid claims: token is expired"
  | .invalidRefreshToken => "invalid refresh token"
  | .recordNotFound => "record not found"

/-- AuthController.RefreshToken handler body after binding: any service
error is mapped by utils.UnauthorizedResponse to a 401 carrying
err.Error(); success is a 200 OKResponse. -/
def refreshTokenHandler (cfg : JWTConfig) (db : DB)
    (tok : SignedToken RefreshTokenClaims) (now : Int) : HttpResponse :=
  match RefreshToken cfg db tok now with
  | .error e => { status := 401, success := false, message := refreshErrorMessage e }
  | .ok _ => { status := 200, success := true, message := "Token refreshed successfully" }

/-- Go strings.Split(s, " ") on the character list: every single space
is a separator and empty fields are kept, so n spaces yield n+1 parts. -/
def splitSpaceChars : List Char → List (List Char)
  | [] => [[]]
  | c :: cs =>
    match splitSpaceChars cs with
    | [] => [[]]
    | p :: ps => if c = ' ' then [] :: p :: ps else (c :: p) :: ps

/-- Go strings.Split(authHeader, " "). -/
def stringsSplitSpace (s : String) : List String :=
  (splitSpaceChars s.data).map List.asString

/-- Go strings.ToLower, characterwise. -/
def stringsToLower (s : String) : String :=
  (s.data.map Char.toLower).asString

/-- Outcome of the Auth middleware: an aborted 401 with its message, or
c.Next() with userID and userRole attached to the gin context. -/
inductive AuthOutcome where
  | unauthorized (msg : String)
  | next (userID : Nat) (role : String)
deriving Repr, DecidableEq

/-- middleware.Auth: reject an empty Authorization header; split the
header on spaces and require exactly two parts with a case-insensitive
"bearer" scheme; validate the second part as an access token (decodeTok
maps the wire string to a structured token, none meaning malformed);
any validation failure is one merged 401 "invalid or expired token"; on
success the claims user id and role are attached. -/
def Auth (secret : String) (decodeTok : String → Option (SignedToken Claims))
    (now : Int) (authHeader : String) : AuthOutcome :=
  if authHeader = "" then .unauthorized "authorization header is required"
  else
    let parts := stringsSplitSpace authHeader
    if parts.length = 2 ∧ stringsToLower (parts.getD 0 "") = "bearer" then
      match decodeTok (parts.getD 1 "") with
      | none => .unauthorized "invalid or expired token"
      | some tok =>
        match ValidateToken secret tok now with
        | .error _ => .unauthorized "invalid or expired token"
        | .ok claims => .next claims.userID claims.role
    else .unauthorized "authorization header format must be Bearer {token}"

/-- Outcome of the RequireRole middleware: 401 when no userRole is in
the context, 403 insufficient permissions, or c.Next(). -/
inductive RoleGateOutcome where
  | unauthorizedNotAuthenticated
  | forbidden
  | next
deriving Repr, DecidableEq

/-- The for-loop body of middleware.RequireRole: admit on the first
enumerated role r with role == "admin" or role == r; fall through to
403 when the list is exhausted. -/
def requireRoleLoop (role : String) : List String → RoleGateOutcome
  | [] => .forbidden
  | r :: rs => if role == "admin" || role == r then .next else requireRoleLoop role rs

/-- middleware.RequireRole: read userRole from the context (absent means
401), then run the loop over the enumerated roles. -/
def RequireRole (roles : List String) (ctxRole : Option String) : RoleGateOutcome :=
  match ctxRole with
  | none => .unauthorizedNotAuthenticated
  | some role => requireRoleLoop role roles

/-! ### Concrete fixtures used by witnesses -/

/-- A small test configuration (secret "s", 15 minutes, 7 days). -/
def cfgEx : JWTConfig :=
  { secret := "s", accessTokenExpiry := 900, refreshTokenExpiry := 604800 }

/-- A stored user with the default user role. -/
def userEx : User :=
  { id := 1, name := "n", email := "e@x", phone := "+1234567890"
    password := "hash", roleID := RoleUser }

/-- A store holding userEx and the seeded user role row. -/
def dbEx : DB :=
  { users := [userEx], roles := [{ id := RoleUser, name := "user" }] }

/-- A store with the role rows seeded but no users. -/
def dbSeed : DB :=
  { users := [], roles := [{ id := RoleUser, name := "user" }] }

/-- An entirely empty store. -/
def dbEmpty : DB := { users := [], roles := [] }

/-- A refresh token for user 1, signed with cfgEx's secret, expiring at
100 with now = 0. -/
def refreshTokEx : SignedToken RefreshTokenClaims :=
  { payload := { userID := 1, expiresAt := 100, issuedAt := 0, subject := "1" }
    signingSecret := "s" }

/-- The response minted for userEx from dbEx at now = 0. -/
def respEx : TokenResponse := mintTokenResponse cfgEx dbEx userEx 0

/-- A registration request. -/
def regReqEx : RegisterRequest :=
  { name := "alice", email := "a@x", phone := "+1", password := "password123" }

/-- An access token for user 7 with role editor, signed with "s",
expiring at 900. -/
def accessTokEx : SignedToken Claims :=
  { payload := { userID := 7, role := "editor", expiresAt := 900, issuedAt := 0, subject := "7" }
    signingSecret := "s" }

/-- A wire decoder knowing exactly one token string, "abc". -/
def decodeTokEx (s : String) : Option (SignedToken Claims) :=
  if s = "abc" then some accessTokEx else none

/-! ### Helper lemmas -/

/-- The RequireRole loop either admits or falls through to 403. -/
theorem requireRoleLoop_next_or_forbidden (role : String) (l : List String) :
    requireRoleLoop role l = .next ∨ requireRoleLoop role l = .forbidden := by
  induction l with
  | nil => exact Or.inr rfl
  | cons r rs ih =>
    by_cases h : (role == "admin" || role == r) = true
    · exact Or.inl (by simp [requireRoleLoop, h])
    · simpa [requireRoleLoop, h] using ih

/-- The RequireRole loop admits exactly when some enumerated role
triggers the admin-or-equal test, i.e. when the list is nonempty and
the role is admin or listed. -/
theorem requireRoleLoop_eq_next_iff (role : String) (l : List String) :
    requireRoleLoop role l = .next ↔ l ≠ [] ∧ (role = "admin" ∨ role ∈ l) := by
  induction l with
  | nil => simp [requireRoleLoop]
  | cons r rs ih =>
    by_cases hadmin : role = "admin"
    · simp [requireRoleLoop, hadmin]
    · by_cases hr : role = r
      · simp [requireRoleLoop, hadmin, hr]
      · simp only [requireRoleLoop, beq_iff_eq, hadmin, hr, Bool.or_eq_true,
          decide_eq_true_eq, or_self, if_false, ih, ne_eq, List.mem_cons,
          false_or, reduceCtorEq, not_false_eq_true, true_and]
        constructor
        · rintro ⟨-, hmem⟩; exact hmem
        · intro hmem; exact ⟨List.ne_nil_of_mem hmem, hmem⟩

/-! ### Claim theorems -/

/-- C1: for every claims value whose expiry lies strictly in the future,
signing it with a secret and validating the result with the same secret
succeeds and returns exactly the original claims (all five fields: user
id, role, expiry, issued-at, subject). -/
theorem validateToken_signClaims_roundtrip (c : Claims) (secret : String)
    (now : Int) (hfut : now < c.expiresAt) :
    ValidateToken secret (signClaims c secret) now = .ok c := by
  simp [ValidateToken, parseWithClaims, signClaims, not_le.mpr hfut]

/-- C1 witness: the round trip at the concrete claims of the unit test
TestValidateToken (user 1, role admin, expiry 900 seconds ahead of
now = 0). -/
theorem validateToken_signClaims_roundtrip_witness :
    (0 : Int) < 900 ∧
    ValidateToken "test-secret"
        (signClaims
          { userID := 1, role := "admin", expiresAt := 900, issuedAt := 0, subject := "1" }
          "test-secret") 0 =
      .ok { userID := 1, role := "admin", expiresAt := 900, issuedAt := 0, subject := "1" } :=
  ⟨by decide, validateToken_signClaims_roundtrip _ "test-secret" 0 (by decide)⟩

/-- C4: a token whose embedded expiry is less than or equal to now is
rejected by ValidateToken even when its signature verifies under the
correct secret; with zero leeway, expiry exactly equal to now is also
rejected. -/
theorem validateToken_rejects_expired (secret : String)
    (tok : SignedToken Claims) (now : Int)
    (hsig : tok.signingSecret = secret) (hexp : tok.payload.expiresAt ≤ now) :
    ValidateToken secret tok now = .error .tokenExpired := by
  simp [ValidateToken, parseWithClaims, hsig, hexp]

/-- C4 witness: the no-leeway edge case, a correctly signed token whose
expiry equals now exactly. -/
theorem validateToken_rejects_expired_witness :
    ValidateToken "s"
        { payload := { userID := 1, role := "user", expiresAt := 5, issuedAt := 0, subject := "1" }
          signingSecret := "s" } 5 =
      .error .tokenExpired :=
  validateToken_rejects_expired "s" _ 5 rfl (by decide)

/-- C5: a token signed with a different secret is rejected by
ValidateToken with the signature error (no claims produced), and at the
Auth middleware boundary this failure is the same merged 401 "invalid
or expired token" outcome as an expiry failure. -/
theorem validateToken_rejects_wrong_secret (secret : String) (now : Int)
    (tok tokExp : SignedToken Claims)
    (hsig : tok.signingSecret ≠ secret)
    (h2 : tokExp.signingSecret = secret) (h3 : tokExp.payload.expiresAt ≤ now)
    (header scheme tokStr : String) (hne : header ≠ "")
    (hsplit : stringsSplitSpace header = [scheme, tokStr])
    (hlow : stringsToLower scheme = "bearer") :
    ValidateToken secret tok now = .error .signatureInvalid ∧
    Auth secret (fun _ => some tok) now header = .unauthorized "invalid or expired token" ∧
    Auth secret (fun _ => some tok) now header = Auth secret (fun _ => some tokExp) now header := by
  have hv : ValidateToken secret tok now = .error .signatureInvalid := by
    simp [ValidateToken, parseWithClaims, hsig]
  have hv2 : ValidateToken secret tokExp now = .error .tokenExpired := by
    simp [ValidateToken, parseWithClaims, h2, h3]
  refine ⟨hv, ?_, ?_⟩ <;> simp [Auth, hne, hsplit, hlow, hv, hv2]

/-- C5 witness: a token signed with "other" checked against secret "s",
compared with an expired token correctly signed with "s", both behind
the header "Bearer abc". -/
theorem validateToken_rejects_wrong_secret_witness :
    ValidateToken "s"
        { payload := { userID := 1, role := "user", expiresAt := 900, issuedAt := 0, subject := "1" }
          signingSecret := "other" } 0 =
      .error .signatureInvalid ∧
    Auth "s"
        (fun _ => some
          { payload := { userID := 1, role := "user", expiresAt := 900, issuedAt := 0, subject := "1" }
            signingSecret := "other" }) 0 "Bearer abc" =
      .unauthorized "invalid or expired token" ∧
    Auth "s"
        (fun _ => some
          { payload := { userID := 1, role := "user", expiresAt := 900, issuedAt := 0, subject := "1" }
            signingSecret := "other" }) 0 "Bearer abc" =
      Auth "s"
        (fun _ => some
          { payload := { userID := 2, role := "user", expiresAt := 0, issuedAt := 0, subject := "2" }
            signingSecret := "s" }) 0 "Bearer abc" :=
  validateToken_rejects_wrong_secret "s" 0 _ _ (by decide) rfl (by decide)
    "Bearer abc" "Bearer" "abc" (by decide) (by decide) (by decide)

/-- C2 counterexample: with an empty allowed list, RequireRole rejects
an authenticated "admin" with 403, refuting the claimed equivalence
(admit iff role is admin or listed) at the concrete input roles = [],
role = "admin". -/
theorem requireRole_empty_admin_counterexample :
    RequireRole [] (some "admin") = .forbidden ∧
    ¬(RequireRole [] (some "admin") = .next ↔
        ("admin" = "admin" ∨ "admin" ∈ ([] : List String))) := by
  decide

/-- C2 amended: for an authenticated role, RequireRole admits iff the
allowed list is nonempty and the role equals "admin" or is present in
the list (so the admin override only applies when at least one role is
enumerated); any non-admitted authenticated request is rejected with
the 403 insufficient-permissions outcome. -/
theorem requireRole_admits_iff (role : String) (roles : List String) :
    (RequireRole roles (some role) = .next ↔
      roles ≠ [] ∧ (role = "admin" ∨ role ∈ roles)) ∧
    (RequireRole roles (some role) ≠ .next →
      RequireRole roles (some role) = .forbidden) := by
  refine ⟨requireRoleLoop_eq_next_iff role roles, ?_⟩
  intro h
  rcases requireRoleLoop_next_or_forbidden role roles with hn | hf
  · exact absurd hn h
  · exact hf

/-- C2 witness: the spec scenario on the editor gate, an admin and an
editor are admitted, a plain user is rejected with 403. -/
theorem requireRole_admits_iff_witness :
    RequireRole ["editor"] (some "admin") = .next ∧
    RequireRole ["editor"] (some "editor") = .next ∧
    RequireRole ["editor"] (some "user") = .forbidden :=
  ⟨(requireRole_admits_iff "admin" ["editor"]).1.mpr (by decide),
   (requireRole_admits_iff "editor" ["editor"]).1.mpr (by decide),
   (requireRole_admits_iff "user" ["editor"]).2 (by decide)⟩

/-- C9: the pre-persist hooks hash the password only when it is
non-empty and shorter than 60 bytes; any password of 60 bytes or more
(and likewise the empty password) passes through both BeforeCreate and
BeforeUpdate unchanged, hence is persisted verbatim. -/
theorem passwordHooks_length_guard (bhash : String → String) (p : String)
    (changed : Bool) :
    (0 < p.utf8ByteSize ∧ p.utf8ByteSize < 60 →
      beforeCreatePassword bhash p = bhash p) ∧
    (60 ≤ p.utf8ByteSize →
      beforeCreatePassword bhash p = p ∧ beforeUpdatePassword bhash changed p = p) ∧
    (beforeCreatePassword bhash p ≠ p →
      beforeCreatePassword bhash p = bhash p ∧
        0 < p.utf8ByteSize ∧ p.utf8ByteSize < 60) := by
  refine ⟨?_, ?_, ?_⟩
  · intro h
    simp [beforeCreatePassword, h.1, h.2]
  · intro h
    have h1 : ¬ p.utf8ByteSize < 60 := by omega
    simp [beforeCreatePassword, beforeUpdatePassword, h1]
  · intro h
    by_cases hc : 0 < p.utf8ByteSize ∧ p.utf8ByteSize < 60
    · exact ⟨by simp [beforeCreatePassword, hc.1, hc.2], hc⟩
    · exact absurd (by simp_all [beforeCreatePassword]) h

/-- C9 witness: a 60-byte password (sixty copies of the letter a) is
left untouched by both hooks. -/
theorem passwordHooks_length_guard_witness :
    60 ≤ (List.replicate 60 'a').asString.utf8ByteSize ∧
    beforeCreatePassword (fun s => "h" ++ s) (List.replicate 60 'a').asString =
      (List.replicate 60 'a').asString ∧
    beforeUpdatePassword (fun s => "h" ++ s) true (List.replicate 60 'a').asString =
      (List.replicate 60 'a').asString :=
  ⟨by decide,
   ((passwordHooks_length_guard (fun s => "h" ++ s) _ true).2.1 (by decide)).1,
   ((passwordHooks_length_guard (fun s => "h" ++ s) _ true).2.1 (by decide)).2⟩

/-- C3: whenever the phone matches no stored user, or it matches one
whose stored hash rejects the password, Login returns the single
generic error built from "invalid phone or password" — the identical
value in both failure causes — and no token. -/
theorem login_invalid_credentials (cfg : JWTConfig) (db : DB)
    (bverify : String → String → Bool) (phone pw : String) (now : Int)
    (h : ∀ u, findUserByPhone db phone = some u → bverify u.password pw = false) :
    Login cfg db bverify phone pw now = .error "invalid phone or password" := by
  unfold Login
  cases hf : findUserByPhone db phone with
  | none => rfl
  | some u => simp [h u hf]

/-- C3 witness: a stored user whose hash rejects every password; login
with the right phone but wrong password yields the generic error. -/
theorem login_invalid_credentials_witness :
    Login cfgEx dbEx (fun _ _ => false) "+1234567890" "wrong" 0 =
      .error "invalid phone or password" :=
  login_invalid_credentials cfgEx dbEx (fun _ _ => false) "+1234567890" "wrong" 0
    (fun _ _ => rfl)

/-- C6: every successful RefreshToken call returns a response whose
expiry — and whose access token's embedded expiry — equals now plus the
configured access token expiry, for every refresh token, so it is never
inherited from the old token; the configured default is 15 minutes. -/
theorem refreshToken_fresh_access_expiry (cfg : JWTConfig) (db : DB)
    (tok : SignedToken RefreshTokenClaims) (now : Int) (resp : TokenResponse)
    (h : RefreshToken cfg db tok now = .ok resp) :
    resp.expiresAt = now + cfg.accessTokenExpiry ∧
    resp.accessToken.payload.expiresAt = now + cfg.accessTokenExpiry ∧
    defaultJWTConfig.accessTokenExpiry = 15 * 60 := by
  unfold RefreshToken at h
  cases hp : parseWithClaims (fun c => c.expiresAt) tok cfg.secret now with
  | error e => rw [hp] at h; exact absurd h (by simp)
  | ok claims =>
    rw [hp] at h
    simp only at h
    cases hf : findUserByID db claims.userID with
    | none => rw [hf] at h; exact absurd h (by simp)
    | some u =>
      rw [hf] at h
      injection h with h2
      subst h2
      exact ⟨rfl, rfl, rfl⟩

/-- C6 witness: refreshing with refreshTokEx (old expiry 100) at now = 0
succeeds and the new access expiry is 0 + 900, not 100. -/
theorem refreshToken_fresh_access_expiry_witness :
    RefreshToken cfgEx dbEx refreshTokEx 0 = .ok respEx ∧
    respEx.expiresAt = 0 + cfgEx.accessTokenExpiry ∧
    respEx.accessToken.payload.expiresAt = 0 + cfgEx.accessTokenExpiry :=
  have h : RefreshToken cfgEx dbEx refreshTokEx 0 = .ok respEx := by decide
  ⟨h, (refreshToken_fresh_access_expiry cfgEx dbEx refreshTokEx 0 respEx h).1,
      (refreshToken_fresh_access_expiry cfgEx dbEx refreshTokEx 0 respEx h).2.1⟩

/-- C7 counterexample: a valid unexpired refresh token for a deleted
user makes RefreshToken fail with gorm's record-not-found error — a
value and a rendered message both distinct from the signature and
expiry failures, so the failure is a distinguishable "user gone" error,
not the same error kind. -/
theorem refreshToken_user_gone_distinct_error :
    RefreshToken cfgEx dbEmpty refreshTokEx 0 = .error .recordNotFound ∧
    RefreshToken cfgEx dbEmpty
        { payload := { userID := 1, expiresAt := 100, issuedAt := 0, subject := "1" }
          signingSecret := "other" } 0 =
      .error (.jwtError .signatureInvalid) ∧
    RefreshToken cfgEx dbEmpty
        { payload := { userID := 1, expiresAt := 0, issuedAt := 0, subject := "1" }
          signingSecret := "s" } 0 =
      .error (.jwtError .tokenExpired) ∧
    RefreshError.recordNotFound ≠ .jwtError .signatureInvalid ∧
    RefreshError.recordNotFound ≠ .jwtError .tokenExpired ∧
    refreshErrorMessage .recordNotFound ≠ refreshErrorMessage (.jwtError .signatureInvalid) ∧
    refreshErrorMessage .recordNotFound ≠ refreshErrorMessage (.jwtError .tokenExpired) := by
  decide

/-- C7 amended: when the embedded user id matches no user, RefreshToken
fails with gorm's record-not-found error, a distinct error value from
the token failures; at the controller boundary it is nevertheless
mapped, like signature and expiry failures, to a 401 Unauthorized
response (though with its own message). -/
theorem refreshToken_user_gone_unauthorized (cfg : JWTConfig) (db : DB)
    (tok : SignedToken RefreshTokenClaims) (now : Int)
    (hsig : tok.signingSecret = cfg.secret) (hexp : now < tok.payload.expiresAt)
    (hgone : findUserByID db tok.payload.userID = none) :
    RefreshToken cfg db tok now = .error .recordNotFound ∧
    (refreshTokenHandler cfg db tok now).status = 401 ∧
    (∀ tok2 : SignedToken RefreshTokenClaims, tok2.signingSecret ≠ cfg.secret →
      (refreshTokenHandler cfg db tok2 now).status = 401) ∧
    (∀ tok3 : SignedToken RefreshTokenClaims, tok3.signingSecret = cfg.secret →
      tok3.payload.expiresAt ≤ now →
      (refreshTokenHandler cfg db tok3 now).status = 401) := by
  have h1 : RefreshToken cfg db tok now = .error .recordNotFound := by
    simp [RefreshToken, parseWithClaims, hsig, not_le.mpr hexp, hgone]
  refine ⟨h1, by simp [refreshTokenHandler, h1], ?_, ?_⟩
  · intro tok2 hs2
    simp [refreshTokenHandler, RefreshToken, parseWithClaims, hs2]
  · intro tok3 hs3 he3
    simp [refreshTokenHandler, RefreshToken, parseWithClaims, hs3, he3]

/-- C7 amended witness: at the empty store, the user-gone failure and a
wrong-secret failure both surface as status 401. -/
theorem refreshToken_user_gone_unauthorized_witness :
    RefreshToken cfgEx dbEmpty refreshTokEx 0 = .error .recordNotFound ∧
    (refreshTokenHandler cfgEx dbEmpty refreshTokEx 0).status = 401 ∧
    (refreshTokenHandler cfgEx dbEmpty
        { payload := { userID := 1, expiresAt := 100, issuedAt := 0, subject := "1" }
          signingSecret := "other" } 0).status = 401 :=
  have h := refreshToken_user_gone_unauthorized cfgEx dbEmpty refreshTokEx 0
    rfl (by decide) (by decide)
  ⟨h.1, h.2.1, h.2.2.1 _ (by decide)⟩

/-- C8: Register rejects with the duplicate-user error exactly when some
stored user shares the email or the phone (one OR query); otherwise the
created user carries the default role id RoleUser = 3, its loaded role
name is "user" (given the seeded role row), and both minted tokens are
bound to the new user's id and that role. -/
theorem register_duplicate_and_default_role (cfg : JWTConfig) (db : DB)
    (bhash : String → String) (req : RegisterRequest) (now : Int)
    (hrole : db.roles.find? (fun r => r.id == RoleUser) =
      some { id := RoleUser, name := "user" }) :
    ((∃ u ∈ db.users, u.email = req.email ∨ u.phone = req.phone) →
      Register cfg db bhash req now =
        .error "user with this email or phone already exists") ∧
    ((∀ u ∈ db.users, u.email ≠ req.email ∧ u.phone ≠ req.phone) →
      ∃ db2 resp newUser,
        Register cfg db bhash req now = .ok (db2, resp) ∧
        db2.users = db.users ++ [newUser] ∧
        newUser.roleID = RoleUser ∧
        resp.user.role = "user" ∧
        resp.accessToken.payload.userID = newUser.id ∧
        resp.accessToken.payload.role = "user" ∧
        resp.refreshToken.payload.userID = newUser.id) ∧
    RoleUser = 3 := by
  refine ⟨?_, ?_, rfl⟩
  · rintro ⟨u, hu, hor⟩
    have hf : u ∈ db.users.filter
        (fun u => u.email == req.email || u.phone == req.phone) := by
      rw [List.mem_filter]
      refine ⟨hu, ?_⟩
      rcases hor with h | h <;> simp [h]
    have hpos :
        0 < (db.users.filter
          (fun u => u.email == req.email || u.phone == req.phone)).length :=
      List.length_pos.mpr (List.ne_nil_of_mem hf)
    simp [Register, hpos]
  · intro h
    have hnil : db.users.filter
        (fun u => u.email == req.email || u.phone == req.phone) = [] := by
      rw [List.filter_eq_nil_iff]
      intro u hu
      simp [(h u hu).1, (h u hu).2]
    have hreg : Register cfg db bhash req now =
        .ok ({ users := db.users ++ [newUserOf db bhash req], roles := db.roles },
          mintTokenResponse cfg
            { users := db.users ++ [newUserOf db bhash req], roles := db.roles }
            (newUserOf db bhash req) now) := by
      simp [Register, hnil]
    refine ⟨_, _, newUserOf db bhash req, hreg, rfl, rfl, ?_, rfl, ?_, rfl⟩
    · simp [mintTokenResponse, loadRoleName, newUserOf, hrole]
    · simp [mintTokenResponse, loadRoleName, generateAccessToken, newUserOf, hrole]

/-- C8 witness: registering against the seeded empty store succeeds with
role id 3, role name "user", and both tokens bound to the new user. -/
theorem register_duplicate_and_default_role_witness :
    ∃ db2 resp newUser,
      Register cfgEx dbSeed (fun s => "h" ++ s) regReqEx 0 = .ok (db2, resp) ∧
      db2.users = dbSeed.users ++ [newUser] ∧
      newUser.roleID = RoleUser ∧
      resp.user.role = "user" ∧
      resp.accessToken.payload.userID = newUser.id ∧
      resp.accessToken.payload.role = "user" ∧
      resp.refreshToken.payload.userID = newUser.id :=
  (register_duplicate_and_default_role cfgEx dbSeed (fun s => "h" ++ s) regReqEx 0
    (by decide)).2.1 (by decide)

/-- C10: the Auth middleware rejects an empty Authorization header with
its own message; any header that does not split on spaces into exactly
two parts, or whose first part does not lower-case to "bearer", is
rejected with the format message independently of the token decoder
(hence before validation); the scheme check is case-insensitive via
ToLower; and on successful validation the claims' user id and role are
attached to the context. -/
theorem auth_header_parsing (secret : String)
    (decodeTok : String → Option (SignedToken Claims)) (now : Int) :
    (Auth secret decodeTok now "" = .unauthorized "authorization header is required") ∧
    (∀ header, header ≠ "" → (stringsSplitSpace header).length ≠ 2 →
      ∀ d2 : String → Option (SignedToken Claims),
        Auth secret d2 now header =
          .unauthorized "authorization header format must be Bearer {token}") ∧
    (∀ header scheme tokStr, header ≠ "" →
      stringsSplitSpace header = [scheme, tokStr] →
      stringsToLower scheme ≠ "bearer" →
      ∀ d2 : String → Option (SignedToken Claims),
        Auth secret d2 now header =
          .unauthorized "authorization header format must be Bearer {token}") ∧
    (∀ header scheme tokStr tok claims, header ≠ "" →
      stringsSplitSpace header = [scheme, tokStr] →
      stringsToLower scheme = "bearer" →
      decodeTok tokStr = some tok →
      ValidateToken secret tok now = .ok claims →
      Auth secret decodeTok now header = .next claims.userID claims.role) := by
  refine ⟨by simp [Auth], ?_, ?_, ?_⟩
  · intro header hne hlen d2
    simp [Auth, hne, hlen]
  · intro header scheme tokStr hne hsplit hlow d2
    simp [Auth, hne, hsplit, hlow]
  · intro header scheme tokStr tok claims hne hsplit hlow hdec hval
    simp [Auth, hne, hsplit, hlow, hdec, hval]

/-- C10 witness: the empty header, a one-part header, a three-part
header (extra space), a wrong scheme, and an upper-case BEARER header
that validates and attaches user 7 with role editor. -/
theorem auth_header_parsing_witness :
    Auth "s" decodeTokEx 0 "" = .unauthorized "authorization header is required" ∧
    Auth "s" decodeTokEx 0 "Bearer" =
      .unauthorized "authorization header format must be Bearer {token}" ∧
    Auth "s" decodeTokEx 0 "Bearer  abc" =
      .unauthorized "authorization header format must be Bearer {token}" ∧
    Auth "s" decodeTokEx 0 "Basic abc" =
      .unauthorized "authorization header format must be Bearer {token}" ∧
    Auth "s" decodeTokEx 0 "BEARER abc" = .next 7 "editor" :=
  ⟨(auth_header_parsing "s" decodeTokEx 0).1,
   (auth_header_parsing "s" decodeTokEx 0).2.1 "Bearer" (by decide) (by decide) decodeTokEx,
   (auth_header_parsing "s" decodeTokEx 0).2.1 "Bearer  abc" (by decide) (by decide) decodeTokEx,
   (auth_header_parsing "s" decodeTokEx 0).2.2.1 "Basic abc" "Basic" "abc"
     (by decide) (by decide) (by decide) decodeTokEx,
   (auth_header_parsing "s" decodeTokEx 0).2.2.2 "BEARER abc" "BEARER" "abc"
     accessTokEx accessTokEx.payload (by decide) (by decide) (by decide)
     (by decide) (by decide)⟩

end Zione
